import Mathlib

/-!
Verification development for the screentrans repository core:
the capture → recognize → translate pipeline worker (src/pipeline.py),
the scrolling-capture loop (src/capture.py), the image stitcher
(src/stitcher.py) and the translation fallback chain (src/translator.py),
shallowly embedded as executable Lean definitions.

Pixel buffers are modelled as row-major grids of integer intensities.
External collaborators (the mss screen grabber, the OCR engine, the
remote translation engines, and OpenCV's matchTemplate) are modelled as
oracle function parameters, mirroring the narrow interfaces the source
code consumes; everything else is translated from the Python source.
-/

set_option maxHeartbeats 1000000

/-- A pixel buffer: a row-major grid of integer pixel intensities.
`rows.length` is the image height, matching `shape[0]` of the numpy
arrays the source code passes around. -/
structure Img where
  rows : List (List Int)
deriving Repr, DecidableEq, Inhabited

/-- Image height, i.e. the number of rows (numpy `shape[0]`). -/
def Img.height (im : Img) : Nat := im.rows.length

/-- All pixels of the image in row-major order. -/
def Img.pixels (im : Img) : List Int := im.rows.flatten

/-- Vertical concatenation of two images, `np.vstack((a, b))`. -/
def vstack (a b : Img) : Img := ⟨a.rows ++ b.rows⟩

/-- Mean squared pixel difference between two same-shaped captures:
`np.mean((next_page.astype(float) - captured_images[-1].astype(float)) ** 2)`
from src/capture.py line 140, as a rational number. -/
def mse (a b : Img) : ℚ :=
  let ds := (a.pixels.zip b.pixels).map (fun p => ((p.1 - p.2) * (p.1 - p.2) : ℤ))
  (ds.sum : ℚ) / (ds.length : ℚ)

/-- Oracle interface for `cv2.matchTemplate` + `cv2.minMaxLoc`
(src/stitcher.py lines 60-61): given the search area and the template,
either raise (modelled as `Except.error`) or return the best normalized
cross-correlation score `max_val` together with the row `max_loc[1]` at
which it occurs. -/
def TemplateMatcher : Type := Img → Img → Except Unit (ℚ × Nat)

namespace ImageStitcher

/-- Strip height used for matching: `search_h = int(h1 * 0.2)` with a
minimum of 10 px (src/stitcher.py lines 49-50). `int(h1 * 0.2)` is the
floor of `h1 / 5`. -/
def searchHeight (h1 : Nat) : Nat :=
  if h1 / 5 < 10 then 10 else h1 / 5

/-- The template: the bottom `searchHeight` rows of the top image,
`template = gray1[h1-search_h:h1, :]` (src/stitcher.py line 52). -/
def templateOf (img1 : Img) : Img :=
  ⟨img1.rows.drop (img1.height - searchHeight img1.height)⟩

/-- The search area: the top 50% of the bottom image,
`search_area = gray2[0:search_area_h, :]` with
`search_area_h = int(h2 * 0.5)` (src/stitcher.py lines 55-56). -/
def searchAreaOf (img2 : Img) : Img :=
  ⟨img2.rows.take (img2.height / 2)⟩

/-- Model of `ImageStitcher._stitch_two` (src/stitcher.py lines 34-118): match the
bottom strip of `img1` inside the top half of `img2`; on a score above
0.8 crop `img2` from `cut_index = match_y + search_h` and vertically
concatenate, otherwise (low score, or the matcher raising) append `img2`
unmodified. -/
def stitchTwo (tm : TemplateMatcher) (img1 img2 : Img) : Img :=
  match tm (searchAreaOf img2) (templateOf img1) with
  | Except.error _ => vstack img1 img2
  | Except.ok (maxVal, matchY) =>
    if maxVal > (0.8 : ℚ) then
      vstack img1 ⟨img2.rows.drop (matchY + searchHeight img1.height)⟩
    else
      vstack img1 img2

/-- The stitching loop of `ImageStitcher.stitch_images`
(src/stitcher.py lines 27-32): `result = images[0]` then
`for i in range(1, len(images)): result = _stitch_two(result, images[i])`. -/
def stitchLoop (tm : TemplateMatcher) (result : Img) : List Img → Img
  | [] => result
  | img :: rest => stitchLoop tm (stitchTwo tm result img) rest

/-- Model of `ImageStitcher.stitch_images` (src/stitcher.py lines 10-32):
empty input returns `None`, a singleton returns its image, otherwise the
images are merged pairwise by the loop above. -/
def stitch_images (tm : TemplateMatcher) (images : List Img) : Option Img :=
  match images with
  | [] => none
  | [img] => some img
  | img :: rest => some (stitchLoop tm img rest)

end ImageStitcher

namespace ScreenCapture

/-- The scroll-and-capture loop of `ScreenCapture.capture_scrolling_region`
(src/capture.py lines 119-154), with the i-th call to
`self.capture_region(x, y, width, height)` modelled by the oracle
`cap i` (each page-down press and settle delay is a pure effect).
`prev :: accTail` is `captured_images` in reverse; `ident` is
`identical_count`; the fuel argument counts the remaining iterations of
`for i in range(max_pages - 1)`. A capture returning `None` breaks the
loop; a capture whose MSE against the last captured image is below 10
raises the counter and, at two consecutive similar captures, breaks
before appending; a dissimilar capture resets the counter. -/
def scrollLoop (cap : Nat → Option Img) :
    Nat → Nat → Img → List Img → Nat → List Img
  | 0, _, prev, accTail, _ => (prev :: accTail).reverse
  | fuel + 1, i, prev, accTail, ident =>
    match cap i with
    | none => (prev :: accTail).reverse
    | some next =>
      if mse next prev < 10 then
        if ident + 1 ≥ 2 then (prev :: accTail).reverse
        else scrollLoop cap fuel (i + 1) next (prev :: accTail) (ident + 1)
      else
        scrollLoop cap fuel (i + 1) next (prev :: accTail) 0

/-- The ordered list `captured_images` produced by
`capture_scrolling_region` (src/capture.py lines 119-156): the first
capture followed by the loop over the remaining `max_pages - 1`
iterations; a failed first capture yields no pages (the function returns
`None`). -/
def capturedPages (cap : Nat → Option Img) (maxPages : Nat) : List Img :=
  match cap 0 with
  | none => []
  | some first => scrollLoop cap (maxPages - 1) 1 first [] 0

/-- Model of `ScreenCapture.capture_scrolling_region` (src/capture.py lines
85-167): capture up to `maxPages` pages and hand the ordered capture
sequence to `ImageStitcher.stitch_images`. -/
def capture_scrolling_region (cap : Nat → Option Img) (tm : TemplateMatcher)
    (maxPages : Nat) : Option Img :=
  match cap 0 with
  | none => none
  | some first =>
    ImageStitcher.stitch_images tm (scrollLoop cap (maxPages - 1) 1 first [] 0)

end ScreenCapture

/-- Oracle interface for the Gemini engine (`genai.GenerativeModel`):
`generate s` models `generate_content` on prompt `s`; `Except.error`
models a raised exception, `Except.ok none` a blocked/empty response
(no `text` or `parts` attribute), `Except.ok (some r)` a response with
text `r`. `generateVision` is the multimodal call with an image part. -/
structure GeminiModel where
  generate : String → Except String (Option String)
  generateVision : String → Img → Except String (Option String)

/-- Oracle interface for the secondary engine
(`deep_translator.GoogleTranslator`): `translateText` models its
`translate` method, `Except.error` a raised exception. -/
structure GoogleEngine where
  translateText : String → Except String String

/-- The state of a constructed `Translator` (src/translator.py):
`engineType` is `self.engine_type`, `geminiModel` is `self.gemini_model`
(`none` = not constructed), `googleTranslator` is `self.translator`,
`geminiMode` is `self.gemini_mode` when the attribute exists, and
`customPrompt` is `self.custom_prompt`. -/
structure TranslatorState where
  engineType : String
  geminiModel : Option GeminiModel
  googleTranslator : Option GoogleEngine
  geminiMode : Option String
  customPrompt : String

namespace Translator

/-- Model of `Translator.is_available` (src/translator.py lines 287-289):
`(self.gemini_model is not None) or (self.translator is not None)`. -/
def is_available (st : TranslatorState) : Bool :=
  st.geminiModel.isSome || st.googleTranslator.isSome

/-- Model of `Translator._translate_with_google` (src/translator.py lines
256-262): call the secondary engine; any exception (including the
`AttributeError` when `self.translator` is `None`) is caught and the
original text returned. -/
def translateWithGoogle (st : TranslatorState) (text : String) : String :=
  match st.googleTranslator with
  | none => text
  | some g =>
    match g.translateText text with
    | Except.ok r => r
    | Except.error _ => text

/-- The base prompt chosen by the gemini paths:
`prompt_override if prompt_override else self.custom_prompt`
(Python truthiness: `None` and `""` both fall back to the custom prompt). -/
def basePromptOf (st : TranslatorState) (promptOverride : Option String) : String :=
  match promptOverride with
  | some p => if p = "" then st.customPrompt else p
  | none => st.customPrompt

/-- Model of `Translator._translate_with_gemini` (src/translator.py lines
232-254): build the prompt, call the model; a blocked/empty response or
a raised exception falls back to the secondary engine. A `None` model
(`generate_content` raising `AttributeError`) also falls back. -/
def translateWithGemini (st : TranslatorState) (text : String)
    (promptOverride : Option String) : String :=
  match st.geminiModel with
  | none => translateWithGoogle st text
  | some m =>
    match m.generate (basePromptOf st promptOverride ++ "\n\n" ++ text) with
    | Except.ok (some r) => r.trim
    | Except.ok none => translateWithGoogle st text
    | Except.error _ => translateWithGoogle st text

/-- Model of `Translator._translate_with_gemini_vision` (src/translator.py lines
185-230): send the prompt and the image; a blocked/empty response or a
raised exception falls back to the text-based gemini path with the same
prompt override. -/
def translateWithGeminiVision (st : TranslatorState) (text : String) (image : Img)
    (promptOverride : Option String) : String :=
  match st.geminiModel with
  | none => translateWithGemini st text promptOverride
  | some m =>
    match m.generateVision
        (basePromptOf st promptOverride ++ "\n\n(Hình ảnh chứa text cần dịch)") image with
    | Except.ok (some r) => r.trim
    | Except.ok none => translateWithGemini st text promptOverride
    | Except.error _ => translateWithGemini st text promptOverride

/-- Model of `Translator.translate` (src/translator.py lines 158-183): empty or
whitespace-only text is returned unchanged; a configured and constructed
gemini engine is preferred (vision variant when an image is supplied and
`gemini_mode == 'vision'`), else the secondary engine, else identity. -/
def translate (st : TranslatorState) (text : String) (image : Option Img)
    (prompt : Option String) : String :=
  if text.trim = "" then text
  else if st.engineType = "gemini" ∧ st.geminiModel.isSome then
    match image, st.geminiMode with
    | some img, some mode =>
      if mode = "vision" then translateWithGeminiVision st text img prompt
      else translateWithGemini st text prompt
    | _, _ => translateWithGemini st text prompt
  else if st.googleTranslator.isSome then
    translateWithGoogle st text
  else
    text

/-- The loop of `Translator.translate_batch` (src/translator.py lines
281-283): `for text in texts: results.append(self.translate(text))`. -/
def batchLoop (st : TranslatorState) : List String → List String
  | [] => []
  | t :: rest => translate st t none none :: batchLoop st rest

/-- Model of `Translator.translate_batch` (src/translator.py lines 264-285):
`if not texts: return []`, otherwise each text is translated
individually, in order. -/
def translate_batch (st : TranslatorState) (texts : List String) : List String :=
  if texts.isEmpty then [] else batchLoop st texts

end Translator

/-- A screen region, the `{'x', 'y', 'width', 'height'}` dictionary that
crosses the command channel (physical pixel units). -/
structure Region where
  x : Int
  y : Int
  width : Int
  height : Int
deriving Repr, DecidableEq

/-- One OCR detection `(bbox, text, confidence)` as returned by
`OCREngine.detect_and_recognize`. -/
structure Span where
  bbox : List (Int × Int)
  text : String
  confidence : ℚ
deriving Repr, DecidableEq

/-- One entry of the `texts` list in a `result` message
(src/pipeline.py lines 192-198). -/
structure SpanOut where
  bbox : List (Int × Int)
  original : String
  translated : String
  confidence : ℚ
deriving Repr, DecidableEq

/-- The `timing` dictionary of a `result` message, with the measured
wall-clock durations as rationals. -/
structure Timing where
  capture : ℚ
  ocr : ℚ
  translation : ℚ
  total : ℚ
deriving Repr, DecidableEq

/-- A message on the result queue (src/pipeline.py puts dictionaries
with `type` one of `init_complete`, `init_error`, `result`, `error`;
`fullTranslation = none` models the absence of the `full_translation`
key in the empty-OCR result). -/
inductive ResultMsg where
  | initComplete (translatorAvailable : Bool)
  | initError (msg : String)
  | result (region : Region) (texts : List SpanOut)
      (fullTranslation : Option String) (timing : Timing)
  | error (msg : String)
deriving Repr, DecidableEq

/-- True exactly for messages of type `result` or `error`. -/
def ResultMsg.isResultOrError : ResultMsg → Bool
  | ResultMsg.result _ _ _ _ => true
  | ResultMsg.error _ => true
  | _ => false

/-- The providers owned by the pipeline worker plus the measured stage
durations, as oracles: `capture` is `ScreenCapture.capture_region`
(which catches its own exceptions and returns `None` on failure), `ocr`
is `OCREngine.detect_and_recognize` (`Except.error` models a raised
exception, caught at the command boundary), `translator` is the
constructed `Translator` state. `tCapture`, `tOcr`, `tTranslation` and
`tTotal` are the wall-clock durations the stages happen to take. -/
structure PipelineEnv where
  capture : Region → Option Img
  ocr : Img → Except String (List Span)
  translator : TranslatorState
  tCapture : ℚ
  tOcr : ℚ
  tTranslation : ℚ
  tTotal : ℚ

namespace ProcessingPipeline

/-- Model of `ProcessingPipeline.process_region` (src/pipeline.py lines 88-228),
as the list of messages it puts on the result queue. A failed capture
emits one `error`; an exception raised by a stage is caught by the
enclosing `try` and emits one `error`; empty OCR output emits one
`result` with an empty `texts` list, no `full_translation` key and a
translation time of `0`; otherwise one `result` is emitted whose spans
keep their original text in the `translated` field and whose
`full_translation` is the translation of all span texts joined by
single spaces (or that joined text itself when no translator is
available). Console printing, the `ocr_log.txt` append (wrapped in its
own `try/except pass`) and the `cv2.imwrite` debug dump are effects
without influence on the emitted messages. -/
def process_region (env : PipelineEnv) (region : Region) : List ResultMsg :=
  match env.capture region with
  | none => [ResultMsg.error ("Failed to capture screen region")]
  | some image =>
    match env.ocr image with
    | Except.error e => [ResultMsg.error e]
    | Except.ok ocrResults =>
      if ocrResults.isEmpty then
        [ResultMsg.result region [] none ⟨env.tCapture, env.tOcr, 0, env.tTotal⟩]
      else
        let combinedText := " ".intercalate (ocrResults.map Span.text)
        let translatedFull :=
          if Translator.is_available env.translator then
            Translator.translate env.translator combinedText none none
          else combinedText
        let translations :=
          ocrResults.map (fun s => SpanOut.mk s.bbox s.text s.text s.confidence)
        [ResultMsg.result region translations (some translatedFull)
          ⟨env.tCapture, env.tOcr, env.tTranslation, env.tTotal⟩]

end ProcessingPipeline

/-- A message on the command queue: the dictionary
`{'type': ..., 'region': ..., 'prompt': ...}`, with `none` modelling an
absent key. -/
structure Command where
  type : String
  region : Option Region
  prompt : Option String
deriving Repr, DecidableEq

/-- The `reload_config` command that `ScreenTranslatorApp.on_settings_saved`
puts on the command queue after a settings save
(src/main.py line 233: `self.command_queue.put({'type': 'reload_config'})`). -/
def reloadConfigCommand : Command := ⟨"reload_config", none, none⟩

/-- The worker-side state of `ProcessingPipeline.run`: the `running`
flag, the configured languages, and the provider instances owned by the
worker. -/
structure WorkerState where
  running : Bool
  sourceLang : String
  targetLang : String
  env : PipelineEnv

/-- One dispatch step of the command loop in `ProcessingPipeline.run`
(src/pipeline.py lines 240-258): a `process_region` command runs
`process_region` on its region (a missing `region` key raises `KeyError`,
caught by the loop's `except` with nothing emitted), a `shutdown`
command clears `running`, and a command of any other type falls through
the `if/elif` with no effect at all. Returns the state after the step
and the messages emitted during it. -/
def dispatchCommand (st : WorkerState) (c : Command) : WorkerState × List ResultMsg :=
  if c.type = "process_region" then
    match c.region with
    | some r => (st, ProcessingPipeline.process_region st.env r)
    | none => (st, [])
  else if c.type = "shutdown" then
    ({ st with running := false }, [])
  else
    (st, [])

/-- A constant grey test image of the given height, one pixel per row. -/
def constImg (h : Nat) : Img := ⟨List.replicate h [0]⟩

/-- A template matcher oracle that always reports a confident match of
score 9/10 at row 0. -/
def tmHigh : TemplateMatcher := fun _ _ => Except.ok (9/10, 0)

/-- A translator state with neither engine constructed. -/
def trNone : TranslatorState :=
  ⟨"google", none, none, none, "Dịch văn bản sau sang tiếng Việt:"⟩

/-- A secondary-engine oracle that prefixes its input. -/
def gEcho : GoogleEngine := ⟨fun s => Except.ok ("vi:" ++ s)⟩

/-- A translator state with only the secondary engine constructed. -/
def trGoogle : TranslatorState :=
  ⟨"google", none, some gEcho, none, "Dịch văn bản sau sang tiếng Việt:"⟩

/-- A concrete OCR span. -/
def spanHello : Span := ⟨[(0, 0), (5, 0), (5, 1), (0, 1)], "Hello World", 9/10⟩

/-- A concrete region with positive width and height. -/
def regionA : Region := ⟨0, 0, 5, 3⟩

/-- A pipeline environment whose capture succeeds and whose OCR finds
no text. -/
def envEmptyOcr : PipelineEnv :=
  ⟨fun _ => some (constImg 3), fun _ => Except.ok [], trNone, 1, 2, 3, 4⟩

/-- A pipeline environment whose capture succeeds and whose OCR finds
one span, with the secondary translation engine available. -/
def envHello : PipelineEnv :=
  ⟨fun _ => some (constImg 3), fun _ => Except.ok [spanHello], trGoogle, 1, 2, 3, 4⟩

/-- A concrete worker state in the ready command loop. -/
def workerA : WorkerState := ⟨true, "en", "vi", envEmptyOcr⟩

/-- A `process_scrolling_region` command for a concrete region, the
command the spec's `ProcessScrollingRegion` variant denotes. -/
def scrollingCommand : Command := ⟨"process_scrolling_region", some regionA, none⟩

/-! ## Helper lemmas -/

@[simp]
lemma constImg_height (h : Nat) : (constImg h).height = h := by
  simp [constImg, Img.height]

@[simp]
lemma vstack_height (a b : Img) : (vstack a b).height = a.height + b.height := by
  simp [vstack, Img.height]

lemma stitchLoop_eq_foldl (tm : TemplateMatcher) (result : Img) (l : List Img) :
    ImageStitcher.stitchLoop tm result l = l.foldl (ImageStitcher.stitchTwo tm) result := by
  induction l generalizing result with
  | nil => rfl
  | cons img rest ih => simp [ImageStitcher.stitchLoop, List.foldl, ih]

lemma mse_constImg_self : mse (constImg 1) (constImg 1) = 0 := by
  simp [mse, constImg, Img.pixels]

/-! ## Claim theorems -/

/-- C5: `stitch_images` on the empty list returns `none`, on a
singleton returns that image unchanged, and on a longer list returns
the left fold of the pairwise merge over the images in order. -/
theorem stitch_images_identity_and_fold (tm : TemplateMatcher) :
    ImageStitcher.stitch_images tm [] = none ∧
    (∀ img : Img, ImageStitcher.stitch_images tm [img] = some img) ∧
    (∀ (img : Img) (rest : List Img),
      ImageStitcher.stitch_images tm (img :: rest)
        = some (rest.foldl (ImageStitcher.stitchTwo tm) img)) := by
  refine ⟨rfl, fun img => rfl, fun img rest => ?_⟩
  cases rest with
  | nil => rfl
  | cons b bs => simp [ImageStitcher.stitch_images, stitchLoop_eq_foldl]

/-- C6: when the template matcher reports score `s` at row `my`, the
merged image has height `h1 + h2 - (my + stripHeight)` if `s` exceeds
0.8 (and the reported row is a valid match position), and exactly
`h1 + h2` if it does not. -/
theorem stitchTwo_height_spec (tm : TemplateMatcher) (img1 img2 : Img) (s : ℚ) (my : Nat)
    (h : tm (ImageStitcher.searchAreaOf img2) (ImageStitcher.templateOf img1)
        = Except.ok (s, my)) :
    ((0.8 : ℚ) < s → my + ImageStitcher.searchHeight img1.height ≤ img2.height →
      (ImageStitcher.stitchTwo tm img1 img2).height
        = img1.height + img2.height - (my + ImageStitcher.searchHeight img1.height)) ∧
    (¬ (0.8 : ℚ) < s →
      (ImageStitcher.stitchTwo tm img1 img2).height = img1.height + img2.height) := by
  constructor
  · intro hs hb
    have hred : (ImageStitcher.stitchTwo tm img1 img2).height
        = img1.height + (img2.rows.length - (my + ImageStitcher.searchHeight img1.height)) := by
      simp [ImageStitcher.stitchTwo, h, hs, vstack, Img.height]
    rw [hred]
    have hh : img2.rows.length = img2.height := rfl
    omega
  · intro hs
    simp [ImageStitcher.stitchTwo, h, hs, vstack, Img.height]

/-- C6 witness: a 12-row image merged with a 30-row image under a
matcher reporting score 9/10 at row 0 has height
12 + 30 - (0 + 10) = 32. -/
theorem stitchTwo_height_spec_witness :
    (ImageStitcher.stitchTwo tmHigh (constImg 12) (constImg 30)).height = 32 := by
  have h := (stitchTwo_height_spec tmHigh (constImg 12) (constImg 30) (9/10) 0 rfl).1
    (by norm_num) (by simp [ImageStitcher.searchHeight])
  simpa [ImageStitcher.searchHeight] using h

/-- C8: `is_available` is false exactly when neither the gemini engine
nor the google engine was constructed, and in that case `translate` is
the identity on every input. -/
theorem translator_unavailable_identity (st : TranslatorState) :
    (Translator.is_available st = false ↔
      st.geminiModel = none ∧ st.googleTranslator = none) ∧
    (Translator.is_available st = false →
      ∀ (text : String) (image : Option Img) (prompt : Option String),
        Translator.translate st text image prompt = text) := by
  have hiff : Translator.is_available st = false ↔
      st.geminiModel = none ∧ st.googleTranslator = none := by
    cases hg : st.geminiModel <;> cases ht : st.googleTranslator <;>
      simp [Translator.is_available, hg, ht]
  refine ⟨hiff, ?_⟩
  intro hfalse text image prompt
  obtain ⟨hg, ht⟩ := hiff.mp hfalse
  by_cases htr : text.trim = ""
  · simp [Translator.translate, htr]
  · simp [Translator.translate, htr, hg, ht]

/-- C8 witness: with neither engine constructed, `is_available` is
false and a concrete text passes through unchanged. -/
theorem translator_unavailable_identity_witness :
    Translator.translate trNone ("Hello World") none none = "Hello World" :=
  (translator_unavailable_identity trNone).2 rfl ("Hello World") none none

/-- C9: `translate_batch` of the empty list is empty, and in general it
is the order-preserving map of the independent `translate` over the
inputs (same length, same order, elementwise). -/
theorem translate_batch_maps_translate (st : TranslatorState) :
    Translator.translate_batch st [] = [] ∧
    ∀ texts : List String,
      Translator.translate_batch st texts
        = texts.map (fun t => Translator.translate st t none none) := by
  have hloop : ∀ l : List String,
      Translator.batchLoop st l = l.map (fun t => Translator.translate st t none none) := by
    intro l
    induction l with
    | nil => rfl
    | cons t rest ih => simp [Translator.batchLoop, ih]
  refine ⟨rfl, fun texts => ?_⟩
  cases texts with
  | nil => rfl
  | cons t rest => simp [Translator.translate_batch, hloop]

/-- C1: for every region with positive width and height, `process_region`
emits exactly one message, and that message is of type `result` or
`error`, on every execution path. -/
theorem process_region_emits_exactly_one (env : PipelineEnv) (region : Region)
    (h : 0 < region.width ∧ 0 < region.height) :
    (ProcessingPipeline.process_region env region).length = 1 ∧
    ∀ m ∈ ProcessingPipeline.process_region env region, m.isResultOrError = true := by
  clear h
  cases hc : env.capture region with
  | none => simp [ProcessingPipeline.process_region, hc, ResultMsg.isResultOrError]
  | some image =>
    cases ho : env.ocr image with
    | error e =>
      simp [ProcessingPipeline.process_region, hc, ho, ResultMsg.isResultOrError]
    | ok ocrResults =>
      by_cases he : ocrResults.isEmpty <;>
        simp [ProcessingPipeline.process_region, hc, ho, he, ResultMsg.isResultOrError]

/-- C1 witness: a concrete environment and region yield exactly one
emitted message. -/
theorem process_region_emits_exactly_one_witness :
    (ProcessingPipeline.process_region envEmptyOcr regionA).length = 1 :=
  (process_region_emits_exactly_one envEmptyOcr regionA (by decide)).1

/-- C3: when capture succeeds and recognition returns no spans, the one
emitted message is a `result` with an empty `texts` list, no
`full_translation`, and a translation time of exactly zero; no `error`
message is emitted. -/
theorem empty_ocr_emits_normal_result (env : PipelineEnv) (region : Region) (image : Img)
    (hc : env.capture region = some image) (ho : env.ocr image = Except.ok []) :
    ProcessingPipeline.process_region env region
      = [ResultMsg.result region [] none ⟨env.tCapture, env.tOcr, 0, env.tTotal⟩] ∧
    ∀ e : String, ResultMsg.error e ∉ ProcessingPipeline.process_region env region := by
  have hmain : ProcessingPipeline.process_region env region
      = [ResultMsg.result region [] none ⟨env.tCapture, env.tOcr, 0, env.tTotal⟩] := by
    simp [ProcessingPipeline.process_region, hc, ho]
  refine ⟨hmain, ?_⟩
  intro e
  rw [hmain]
  simp

/-- C3 witness: a concrete empty-recognition run emits the single
normal result with zero translation time. -/
theorem empty_ocr_emits_normal_result_witness :
    ProcessingPipeline.process_region envEmptyOcr regionA
      = [ResultMsg.result regionA [] none ⟨1, 2, 0, 4⟩] :=
  (empty_ocr_emits_normal_result envEmptyOcr regionA (constImg 3) rfl rfl).1

/-- C4: when recognition returns a non-empty span list, the emitted
success result keeps each span's original text in its `translated`
field, and, when the translator is available, its `full_translation` is
the translator applied once to the span texts joined by single spaces. -/
theorem nonempty_ocr_result_shape (env : PipelineEnv) (region : Region) (image : Img)
    (spans : List Span) (hc : env.capture region = some image)
    (ho : env.ocr image = Except.ok spans) (hne : spans ≠ []) :
    ∃ (texts : List SpanOut) (fullT : String) (timing : Timing),
      ProcessingPipeline.process_region env region
        = [ResultMsg.result region texts (some fullT) timing] ∧
      texts.map SpanOut.original = spans.map Span.text ∧
      (∀ t ∈ texts, t.translated = t.original) ∧
      (Translator.is_available env.translator = true →
        fullT = Translator.translate env.translator
          (" ".intercalate (spans.map Span.text)) none none) := by
  have hie : spans.isEmpty = false := by
    cases spans with
    | nil => exact absurd rfl hne
    | cons a l => rfl
  refine ⟨spans.map (fun s => SpanOut.mk s.bbox s.text s.text s.confidence),
    (if Translator.is_available env.translator then
      Translator.translate env.translator
        (" ".intercalate (spans.map Span.text)) none none
     else (" ".intercalate (spans.map Span.text))),
    ⟨env.tCapture, env.tOcr, env.tTranslation, env.tTotal⟩, ?_, ?_, ?_, ?_⟩
  · simp [ProcessingPipeline.process_region, hc, ho, hie]
  · simp [Function.comp]
  · intro t ht
    simp at ht
    obtain ⟨s, hs, rfl⟩ := ht
    rfl
  · intro hav
    simp [hav]

/-- C4 witness: a concrete one-span recognition with the secondary
engine available satisfies the stated result shape. -/
theorem nonempty_ocr_result_shape_witness :
    ∃ (texts : List SpanOut) (fullT : String) (timing : Timing),
      ProcessingPipeline.process_region envHello regionA
        = [ResultMsg.result regionA texts (some fullT) timing] ∧
      texts.map SpanOut.original = [spanHello].map Span.text ∧
      (∀ t ∈ texts, t.translated = t.original) ∧
      (Translator.is_available envHello.translator = true →
        fullT = Translator.translate envHello.translator
          (" ".intercalate ([spanHello].map Span.text)) none none) :=
  nonempty_ocr_result_shape envHello regionA (constImg 3) [spanHello] rfl rfl (by simp)

/-- C10: a dequeued command whose type is neither `process_region` nor
`shutdown` is silently discarded: the dispatch step emits no message
and leaves the worker state (providers and configuration included)
unchanged. -/
theorem unknown_command_discarded (st : WorkerState) (c : Command)
    (h1 : c.type ≠ "process_region") (h2 : c.type ≠ "shutdown") :
    dispatchCommand st c = (st, []) := by
  unfold dispatchCommand
  rw [if_neg h1, if_neg h2]

/-- C10 witness: the `reload_config` command that the UI sends after a
settings save is discarded with no emission and no state change. -/
theorem unknown_command_discarded_witness :
    dispatchCommand workerA reloadConfigCommand = (workerA, []) :=
  unknown_command_discarded workerA reloadConfigCommand (by decide) (by decide)

/-- C2 counterexample: a concrete `process_scrolling_region` command
dispatched to a ready worker produces no scrolling capture and no
result message at all — the worker loop's `if/elif` recognizes only
`process_region` and `shutdown` — refuting the claim that the worker
performs the scrolling capture and emits a result for the command. -/
theorem scrolling_command_dropped_cex :
    dispatchCommand workerA scrollingCommand = (workerA, []) := by
  unfold dispatchCommand
  rw [if_neg (by decide : scrollingCommand.type ≠ "process_region"),
    if_neg (by decide : scrollingCommand.type ≠ "shutdown")]

/-- C2 amended: every `process_scrolling_region` command is silently
discarded by the worker loop (no capture, no emission, no state
change); the scrolling capture path itself lives unreached in
`ScreenCapture.capture_scrolling_region`, which does pass the ordered
capture sequence to the Stitcher whenever the first capture succeeds. -/
theorem scrolling_command_discarded (st : WorkerState) (c : Command)
    (hc : c.type = "process_scrolling_region") :
    dispatchCommand st c = (st, []) ∧
    ∀ (cap : Nat → Option Img) (tm : TemplateMatcher) (maxPages : Nat) (first : Img),
      cap 0 = some first →
      ScreenCapture.capture_scrolling_region cap tm maxPages
        = ImageStitcher.stitch_images tm (ScreenCapture.capturedPages cap maxPages) := by
  constructor
  · unfold dispatchCommand
    rw [if_neg (by rw [hc]; decide), if_neg (by rw [hc]; decide)]
  · intro cap tm maxPages first h
    simp [ScreenCapture.capture_scrolling_region, ScreenCapture.capturedPages, h]

/-- C2 witness: the concrete scrolling command is discarded, and a
concrete successful capture sequence is handed to the stitcher. -/
theorem scrolling_command_discarded_witness :
    dispatchCommand workerA scrollingCommand = (workerA, []) ∧
    ScreenCapture.capture_scrolling_region (fun _ => some (constImg 2)) tmHigh 3
      = ImageStitcher.stitch_images tmHigh
          (ScreenCapture.capturedPages (fun _ => some (constImg 2)) 3) :=
  ⟨(scrolling_command_discarded workerA scrollingCommand rfl).1,
    (scrolling_command_discarded workerA scrollingCommand rfl).2
      (fun _ => some (constImg 2)) tmHigh 3 (constImg 2) rfl⟩

lemma scrollLoop_length_le (cap : Nat → Option Img) :
    ∀ (fuel i : Nat) (prev : Img) (accTail : List Img) (ident : Nat),
      (ScreenCapture.scrollLoop cap fuel i prev accTail ident).length
        ≤ fuel + accTail.length + 1 := by
  intro fuel
  induction fuel with
  | zero =>
    intro i prev accTail ident
    simp only [ScreenCapture.scrollLoop, List.length_reverse, List.length_cons]
    omega
  | succ fuel ih =>
    intro i prev accTail ident
    simp only [ScreenCapture.scrollLoop]
    cases hci : cap i with
    | none =>
      simp only [List.length_reverse, List.length_cons]
      omega
    | some next =>
      simp only []
      by_cases hm : mse next prev < 10
      · rw [if_pos hm]
        by_cases hid : ident + 1 ≥ 2
        · rw [if_pos hid]
          simp only [List.length_reverse, List.length_cons]
          omega
        · rw [if_neg hid]
          have h := ih (i + 1) next (prev :: accTail) (ident + 1)
          simp only [List.length_cons] at h
          omega
      · rw [if_neg hm]
        have h := ih (i + 1) next (prev :: accTail) 0
        simp only [List.length_cons] at h
        omega

lemma scrollLoop_stabilizes (imgs : Nat → Img) (k : Nat)
    (hk1 : mse (imgs (k + 1)) (imgs k) < 10)
    (hk2 : mse (imgs (k + 2)) (imgs (k + 1)) < 10) :
    ∀ (fuel i : Nat) (accTail : List Img) (ident : Nat),
      i + 1 ≤ k + 2 → (i + 1 = k + 2 → 1 ≤ ident) → accTail.length = i →
      (ScreenCapture.scrollLoop (fun j => some (imgs j)) fuel (i + 1) (imgs i)
          accTail ident).length ≤ k + 2 := by
  intro fuel
  induction fuel with
  | zero =>
    intro i accTail ident hle _ hlen
    simp only [ScreenCapture.scrollLoop, List.length_reverse, List.length_cons]
    omega
  | succ fuel ih =>
    intro i accTail ident hle hident hlen
    simp only [ScreenCapture.scrollLoop]
    by_cases hm : mse (imgs (i + 1)) (imgs i) < 10
    · rw [if_pos hm]
      by_cases hid : ident + 1 ≥ 2
      · rw [if_pos hid]
        simp only [List.length_reverse, List.length_cons]
        omega
      · rw [if_neg hid]
        have hle' : (i + 1) + 1 ≤ k + 2 := by
          rcases Nat.lt_or_ge (i + 1) (k + 2) with h | h
          · omega
          · have heq : i + 1 = k + 2 := by omega
            have := hident heq
            omega
        have h := ih (i + 1) (imgs i :: accTail) (ident + 1) hle'
          (by intro _; omega) (by simp [hlen])
        exact h
    · rw [if_neg hm]
      have hne1 : i ≠ k := by
        intro h
        rw [h] at hm
        exact hm hk1
      have hne2 : i ≠ k + 1 := by
        intro h
        rw [h] at hm
        exact hm hk2
      have hle' : (i + 1) + 1 ≤ k + 2 := by omega
      have h := ih (i + 1) (imgs i :: accTail) 0 hle'
        (by intro hcontra; exact absurd (by omega : i = k) hne1) (by simp [hlen])
      exact h

/-- C7 counterexample: with `max_pages = 0` the loop still captures the
first page, so the number of captured pages is 1, not at most
`max_pages`: the claim's bound "at most max_pages images" fails at
`max_pages = 0`. -/
theorem scrolling_maxpages_zero_cex :
    ¬ ((ScreenCapture.capturedPages (fun _ => some (constImg 1)) 0).length ≤ 0) := by
  have h : ScreenCapture.capturedPages (fun _ => some (constImg 1)) 0 = [constImg 1] := rfl
  rw [h]
  simp

/-- C7 amended: the scrolling-capture loop always terminates (it is a
total function); for every `max_pages ≥ 1` it captures at most
`max_pages` images even when content never stabilizes; and when two
consecutive captures are each MSE-below-threshold against their
predecessor (positions k+1 and k+2), the loop stops by then: at most
k+2 pages are captured. -/
theorem scrolling_capture_terminates (cap : Nat → Option Img) (maxPages : Nat)
    (hmp : 1 ≤ maxPages) :
    (ScreenCapture.capturedPages cap maxPages).length ≤ maxPages ∧
    (∀ (imgs : Nat → Img) (k : Nat), cap = (fun j => some (imgs j)) →
      mse (imgs (k + 1)) (imgs k) < 10 → mse (imgs (k + 2)) (imgs (k + 1)) < 10 →
      (ScreenCapture.capturedPages cap maxPages).length ≤ k + 2) := by
  constructor
  · cases hc : cap 0 with
    | none => simp [ScreenCapture.capturedPages, hc]
    | some first =>
      have h := scrollLoop_length_le cap (maxPages - 1) 1 first [] 0
      simp only [List.length_nil] at h
      have he : ScreenCapture.capturedPages cap maxPages
          = ScreenCapture.scrollLoop cap (maxPages - 1) 1 first [] 0 := by
        simp [ScreenCapture.capturedPages, hc]
      rw [he]
      omega
  · intro imgs k hcap hk1 hk2
    subst hcap
    have h := scrollLoop_stabilizes imgs k hk1 hk2 (maxPages - 1) 0 [] 0
      (by omega) (by intro hcontra; omega) rfl
    simpa [ScreenCapture.capturedPages] using h

/-- C7 witness: a constant capture sequence with `max_pages = 3`
captures at most 3 pages, and — since consecutive captures have MSE 0,
below the threshold — at most 2 pages. -/
theorem scrolling_capture_terminates_witness :
    (ScreenCapture.capturedPages (fun _ => some (constImg 1)) 3).length ≤ 3 ∧
    (ScreenCapture.capturedPages (fun _ => some (constImg 1)) 3).length ≤ 2 := by
  have h := scrolling_capture_terminates (fun _ => some (constImg 1)) 3 (by norm_num)
  have hm : mse (constImg 1) (constImg 1) < 10 := by
    rw [mse_constImg_self]
    norm_num
  exact ⟨h.1, h.2 (fun _ => constImg 1) 0 rfl hm hm⟩
